import Mathlib

/-!
Verification of the gateway order lifecycle and notification reconciliation
engine of `payments_payu/provider.py` (django-payments-payu).

The Python source is shallowly embedded: Decimal amounts become rationals
(Python `Decimal` arithmetic on the inputs that occur here is exact),
JSON dictionaries become structures with `Option` fields (a `none` field is
an absent key; reading an absent key raises `KeyError`), Python exceptions
become an `Except`/explicit error value, and the externally owned payment
record becomes an explicit `Payment` state threaded through each operation.
The journal (`extra_data`) is modelled as append-only lists of entries;
its JSON-merge encoding is irrelevant to the properties proved here.
-/

namespace PayuProvider

/-- Payment statuses of the `payments` library (`PaymentStatus`). -/
inductive PaymentStatus where
  | waiting
  | preauth
  | input
  | confirmed
  | rejected
  | refunded
  | error
deriving DecidableEq, Repr

/-- Fraud statuses of the `payments` library (`FraudStatus`). -/
inductive FraudStatus where
  | unknown
  | accept
  | reject
deriving DecidableEq, Repr

/-- The supported currencies: exactly the keys of `CURRENCY_SUB_UNIT`
in `provider.py`.  An unsupported currency string would raise `KeyError`
in the source; such inputs are outside this model's input space. -/
inductive Currency where
  | PLN
  | EUR
  | USD
  | CZK
  | GBP
deriving DecidableEq, Repr

/-- The dictionary `CURRENCY_SUB_UNIT`: every supported currency maps to `Decimal(100)`. -/
def CURRENCY_SUB_UNIT : Currency → ℚ := fun _ => 100

/-- Python `Decimal` rounding `ROUND_HALF_UP` to integer: round to the
nearest integer, ties away from zero. -/
def roundHalfUpInt (q : ℚ) : ℤ :=
  if 0 ≤ q then ⌊q + 1 / 2⌋ else -⌊-q + 1 / 2⌋

/-- Python `price.quantize(CENTS, rounding=ROUND_HALF_UP)` with `CENTS =
Decimal("0.01")`: round to two decimal places, half up (ties away from
zero). -/
def decQuantizeCents (q : ℚ) : ℚ :=
  (roundHalfUpInt (q * 100) : ℚ) / 100

/-- Python `int(d)` on a `Decimal`: truncation toward zero. -/
def pyIntTrunc (q : ℚ) : ℤ :=
  if 0 ≤ q then ⌊q⌋ else -⌊-q⌋

/-- Source `quantize_price(price, currency)` from `provider.py`:
multiply by the sub-unit, quantize to cents half-up, convert to `int`. -/
def quantize_price (price : ℚ) (currency : Currency) : ℤ :=
  let p := price * CURRENCY_SUB_UNIT currency
  pyIntTrunc (decQuantizeCents p)

/-- Modelled from the spec ("multiply by the currency's sub-unit divisor
(fixed at 100), round half-up to the nearest integer"): the spec's claimed
behaviour of `quantize_price`, for comparison with the source definition. -/
def quantize_price_spec (price : ℚ) (currency : Currency) : ℤ :=
  roundHalfUpInt (price * CURRENCY_SUB_UNIT currency)

/-- Source `dequantize_price(price, currency)` from `provider.py`:
divide by the sub-unit exactly. -/
def dequantize_price (price : ℤ) (currency : Currency) : ℚ :=
  (price : ℚ) / CURRENCY_SUB_UNIT currency

lemma roundHalfUpInt_intCast (n : ℤ) : roundHalfUpInt (n : ℚ) = n := by
  unfold roundHalfUpInt
  have h2 : ⌊(1 : ℚ) / 2⌋ = 0 := by norm_num
  by_cases h : (0 : ℚ) ≤ (n : ℚ)
  · simp only [h, if_pos]
    rw [Int.floor_int_add, h2, add_zero]
  · simp only [h, if_neg, not_false_iff]
    have : -(n : ℚ) + 1 / 2 = ((-n : ℤ) : ℚ) + 1 / 2 := by push_cast; ring
    rw [this, Int.floor_int_add, h2, add_zero, neg_neg]

lemma pyIntTrunc_intCast (n : ℤ) : pyIntTrunc (n : ℚ) = n := by
  unfold pyIntTrunc
  by_cases h : (0 : ℚ) ≤ (n : ℚ)
  · simp only [h, if_pos, Int.floor_intCast]
  · simp only [h, if_neg, not_false_iff]
    rw [show -(n : ℚ) = ((-n : ℤ) : ℚ) by push_cast; ring, Int.floor_intCast, neg_neg]

/-- On any amount that is an exact multiple of a cent, `quantize_price`
returns exactly the amount scaled by 100. -/
lemma quantize_price_div100 (k : ℤ) (c : Currency) :
    quantize_price ((k : ℚ) / 100) c = k := by
  unfold quantize_price CURRENCY_SUB_UNIT decQuantizeCents
  have hp : (k : ℚ) / 100 * 100 = (k : ℚ) := by
    field_simp
  rw [hp]
  show pyIntTrunc ((roundHalfUpInt ((k : ℚ) * 100) : ℚ) / 100) = k
  have hk : (k : ℚ) * 100 = ((k * 100 : ℤ) : ℚ) := by push_cast; ring
  rw [hk, roundHalfUpInt_intCast]
  have : ((k * 100 : ℤ) : ℚ) / 100 = (k : ℚ) := by push_cast; field_simp
  rw [this, pyIntTrunc_intCast]

/-- Python exceptions that escape the embedded operations. -/
inductive PyError where
  | payuApiError (msg : String)
  | jsonDecodeError
  | indexError
  | keyError (key : String)
  | exception (msg : String)
deriving DecidableEq, Repr

/-- Parsed `data["refund"]` sub-dictionary of a notification body.
`none` fields are absent keys. -/
structure RefundData where
  amount : Option ℤ
  currencyCode : Option Currency
  status : Option String
  reasonDescription : Option String
deriving DecidableEq, Repr

/-- Parsed `data["order"]` sub-dictionary of a notification body. -/
structure OrderData where
  status : Option String
  totalAmount : Option ℤ
  currencyCode : Option Currency
deriving DecidableEq, Repr

/-- Parsed JSON body of a notification. -/
structure NotifData where
  refund : Option RefundData
  order : Option OrderData
deriving DecidableEq, Repr

/-- The inbound webhook request: raw body text and the
`HTTP_OPENPAYU_SIGNATURE` header (absent when the key is missing from
`request.META`). -/
structure Request where
  body : String
  openpayu_signature : Option String
deriving DecidableEq, Repr

/-- A Django `HttpResponse`: content and HTTP status code. -/
structure HttpResp where
  content : String
  status : ℕ
deriving DecidableEq, Repr

/-- Source `add_new_status(payment, data)`: append the raw notification to the
`statuses` journal in `extra_data`. -/
def add_new_status (statuses : List NotifData) (data : NotifData) : List NotifData :=
  statuses ++ [data]

/-- Read a dictionary key, raising `KeyError` when absent
(`d[key]` in Python). -/
def getKey {α : Type} (key : String) : Option α → Except PyError α
  | some a => .ok a
  | none => .error (.keyError key)

/-- Python `str.split(sep)` for a one-character separator, at the level of
character lists (structural recursion so that concrete headers evaluate).
`"".split(sep) == [""]`, and separators at the ends produce empty parts,
exactly as in Python. -/
def pySplitChar (sep : Char) : List Char → List (List Char)
  | [] => [[]]
  | c :: rest =>
    let r := pySplitChar sep rest
    if c = sep then [] :: r
    else
      match r with
      | h :: t => (c :: h) :: t
      | [] => [[c]]

/-- Python `s.split(sep)` for a one-character separator string. -/
def pySplit (sep : Char) (s : String) : List String :=
  (pySplitChar sep s.toList).map List.asString

/-- The loop over `header.split(";")`: each element is split on `"="`;
elements `[0]` and `[1]` are the key and value (fewer than two parts is an
`IndexError`), and repeated keys overwrite (`header_data[key] = value`). -/
def parseHeaderData (header : String) : Except PyError (List (String × String)) :=
  (pySplit ';' header).foldlM
    (fun acc x =>
      match pySplit '=' x with
      | k :: v :: _ => .ok (acc ++ [(k, v)])
      | _ => .error .indexError)
    []

/-- Python dict lookup on the association list built by `parseHeaderData`:
the last binding of a key wins. -/
def dictGet (l : List (String × String)) (k : String) : Option String :=
  (l.reverse.find? (fun p => p.1 == k)).map (·.2)

/-- The `status` object of a gateway JSON response. -/
structure RespStatus where
  statusCode : Option String
  codeLiteral : Option String
deriving DecidableEq, Repr

/-- The `response_dict["payMethods"]["payMethod"]["card"]` object of an order-creation
response (modelled with its keys present; `create_order` reads them all at
once inside its `try` block). -/
structure CardData where
  expirationYear : String
  expirationMonth : String
  number : String
deriving DecidableEq, Repr

/-- The `response_dict["payMethods"]["payMethod"]` object of an order-creation
response. -/
structure PayMethodData where
  value : String
  card : CardData
deriving DecidableEq, Repr

/-- A decoded order-creation response, as far as `create_order` inspects
it. -/
structure OrderResponse where
  orderId : Option String
  payMethods : Option PayMethodData
  status : Option RespStatus
  redirectUri : Option String
deriving DecidableEq, Repr

/-- The `response["refund"]` object of a synchronous refund response. -/
structure RefundRespData where
  refundId : Option String
  status : Option String
  currencyCode : Option Currency
  amount : Option ℤ
deriving DecidableEq, Repr

/-- A decoded synchronous refund response, as far as `refund` inspects
it. -/
structure RefundResponse where
  orderId : Option String
  refund : Option RefundRespData
  status : Option RespStatus
deriving DecidableEq, Repr

/-- An entry appended to the payment's `extra_data` journal by
`add_extra_data`: the raw response stored under `card_response`, a
`cvv_url`, a `3ds_url`, or a whole response dictionary merged in. -/
inductive ExtraEntry where
  | cardResponse (r : OrderResponse)
  | cvvUrl (u : String)
  | threeDsUrl (u : String)
  | respDict (r : OrderResponse)
deriving DecidableEq, Repr

/-- The `status_map` dictionary of `process_notification`; `none` models a
key for which `status_map[...]` raises `KeyError`. -/
def status_map : String → Option PaymentStatus
  | "COMPLETED" => some .confirmed
  | "PENDING" => some .input
  | "WAITING_FOR_CONFIRMATION" => some .input
  | "CANCELED" => some .rejected
  | "NEW" => some .waiting
  | _ => none

/-- The payment record: the externally owned state mutated by the provider.
`statuses` is the `extra_data["statuses"]` journal, `extra` the remaining
`extra_data` entries, and `refund_responses` the
`extra_data["refund_responses"]` history; `renew_token` stands for the
stored card token of `set_renew_token` (card metadata and provenance are
stored alongside it and are not inspected by any operation here). -/
structure Payment where
  status : PaymentStatus
  fraud_status : FraudStatus
  currency : Currency
  total : ℚ
  captured_amount : ℚ
  message : String
  transaction_id : Option String
  pay_link : Option String
  renew_token : Option String
  statuses : List NotifData
  extra : List ExtraEntry
  refund_responses : List RefundResponse
deriving DecidableEq, Repr

/-- Source `PayuProvider.process_notification(payment, request)`.

The MD5 hex digest (`hashlib.md5`) and JSON decoding (`json.loads`) are
standard-library collaborators and are passed in as pure functions:
`md5hex` maps the signed text (raw body ++ second key) to its hex digest,
and `parseJson` maps a body to its decoded dictionary (`none` = a
`JSONDecodeError`; the source calls `json.loads` twice on the same body,
which for a pure decoder is one parse).  The result is the mutated payment
together with the returned `HttpResponse`, or the escaped exception:
a missing `HTTP_OPENPAYU_SIGNATURE` key is a `KeyError` caught and
re-raised as `PayuApiError("Malformed POST")`, while a `JSONDecodeError`,
header-format errors, missing dictionary keys, an unmapped order status
(`status_map[...]`) and a non-FINALIZED refund all propagate. -/
def process_notification (md5hex : String → String) (parseJson : String → Option NotifData)
    (second_key : String) (payment : Payment) (request : Request) :
    Except PyError (Payment × HttpResp) :=
  match parseJson request.body with
  | none => .error .jsonDecodeError
  | some data =>
  match request.openpayu_signature with
  | none => .error (.payuApiError "Malformed POST")
  | some header =>
  match parseHeaderData header with
  | .error e => .error e
  | .ok header_data =>
  match getKey "signature" (dictGet header_data "signature") with
  | .error e => .error e
  | .ok incoming_signature =>
  match getKey "algorithm" (dictGet header_data "algorithm") with
  | .error e => .error e
  | .ok algorithm =>
  if algorithm = "MD5" then
    let signature := md5hex (request.body ++ second_key)
    if incoming_signature = signature then
      let payment := { payment with statuses := add_new_status payment.statuses data }
      match data.refund with
      | some refund =>
        (match getKey "amount" refund.amount with
         | .error e => .error e
         | .ok amount =>
         match getKey "currencyCode" refund.currencyCode with
         | .error e => .error e
         | .ok currencyCode =>
         let refunded_price := dequantize_price amount currencyCode
         match getKey "status" refund.status with
         | .error e => .error e
         | .ok rstatus =>
         if rstatus = "FINALIZED" then
           match getKey "reasonDescription" refund.reasonDescription with
           | .error e => .error e
           | .ok reason =>
           let payment := { payment with message := payment.message ++ reason }
           if payment.captured_amount ≤ refunded_price then
             .ok ({ payment with status := .refunded }, ⟨"ok", 200⟩)
           else
             .ok ({ payment with
                      captured_amount := payment.captured_amount - refunded_price },
                  ⟨"ok", 200⟩)
         else
           .error (.exception "Refund was not finelized"))
      | none =>
        (match getKey "order" data.order with
         | .error e => .error e
         | .ok order =>
         match getKey "status" order.status with
         | .error e => .error e
         | .ok ostatus =>
         match status_map ostatus with
         | none => .error (.keyError ostatus)
         | some status =>
         let updated : Except PyError Payment :=
           if status = .confirmed ∧ order.totalAmount.isSome then
             match getKey "totalAmount" order.totalAmount with
             | .error e => .error e
             | .ok totalAmount =>
             match getKey "currencyCode" order.currencyCode with
             | .error e => .error e
             | .ok currencyCode =>
             .ok { payment with
                     captured_amount := dequantize_price totalAmount currencyCode }
           else
             .ok payment
         match updated with
         | .error e => .error e
         | .ok payment => .ok ({ payment with status := status }, ⟨"ok", 200⟩))
    else
      .ok (payment, ⟨"not ok", 500⟩)
  else
    .ok (payment, ⟨"not ok", 500⟩)

/-- C1: for every refund notification with a valid signature and refund
status FINALIZED, `process_notification` transitions the payment to REFUNDED
whenever the dequantized refunded amount is ≥ `captured_amount` (also when
strictly greater), and otherwise subtracts the refunded amount from
`captured_amount` while leaving the payment status unchanged. -/
theorem C1_refund_finalized
    (md5hex : String → String) (parseJson : String → Option NotifData)
    (second_key : String) (payment : Payment) (request : Request)
    (data : NotifData) (header : String) (header_data : List (String × String))
    (refund : RefundData) (a : ℤ) (c : Currency) (rd : String)
    (hparse : parseJson request.body = some data)
    (hhdr : request.openpayu_signature = some header)
    (hpd : parseHeaderData header = .ok header_data)
    (hsig : dictGet header_data "signature" = some (md5hex (request.body ++ second_key)))
    (halg : dictGet header_data "algorithm" = some "MD5")
    (hrefund : data.refund = some refund)
    (hamount : refund.amount = some a)
    (hcurrency : refund.currencyCode = some c)
    (hstatus : refund.status = some "FINALIZED")
    (hreason : refund.reasonDescription = some rd) :
    (dequantize_price a c ≥ payment.captured_amount →
      process_notification md5hex parseJson second_key payment request =
        .ok ({ payment with
                 statuses := add_new_status payment.statuses data,
                 message := payment.message ++ rd,
                 status := .refunded }, ⟨"ok", 200⟩)) ∧
    (dequantize_price a c < payment.captured_amount →
      process_notification md5hex parseJson second_key payment request =
        .ok ({ payment with
                 statuses := add_new_status payment.statuses data,
                 message := payment.message ++ rd,
                 captured_amount :=
                   payment.captured_amount - dequantize_price a c }, ⟨"ok", 200⟩)) := by
  constructor
  · intro h
    simp [process_notification, hparse, hhdr, hpd, hsig, halg, getKey, hrefund,
      hamount, hcurrency, hstatus, hreason, le_of_lt, h]
  · intro h
    simp [process_notification, hparse, hhdr, hpd, hsig, halg, getKey, hrefund,
      hamount, hcurrency, hstatus, hreason, not_le.mpr h]

theorem C1_refund_finalized_witness :
    ((220 : ℚ) ≤ dequantize_price 22000 .USD) ∧
    process_notification (fun _ => "sig")
      (fun _ => some ⟨some ⟨some 22000, some .USD, some "FINALIZED", some "r"⟩, none⟩) "k"
      ⟨.confirmed, .unknown, .USD, 220, 220, "", none, none, none, [], [], []⟩ ⟨"B", some "signature=sig;algorithm=MD5"⟩ =
      .ok (⟨.refunded, .unknown, .USD, 220, 220, "r", none, none, none,
            [⟨some ⟨some 22000, some .USD, some "FINALIZED", some "r"⟩, none⟩], [], []⟩,
           ⟨"ok", 200⟩) := by
  have hle : (220 : ℚ) ≤ dequantize_price 22000 .USD := by
    norm_num [dequantize_price, CURRENCY_SUB_UNIT]
  refine ⟨hle, ?_⟩
  have h := (C1_refund_finalized (fun _ => "sig")
      (fun _ => some ⟨some ⟨some 22000, some .USD, some "FINALIZED", some "r"⟩, none⟩) "k"
      ⟨.confirmed, .unknown, .USD, 220, 220, "", none, none, none, [], [], []⟩ ⟨"B", some "signature=sig;algorithm=MD5"⟩
      ⟨some ⟨some 22000, some .USD, some "FINALIZED", some "r"⟩, none⟩
      "signature=sig;algorithm=MD5" [("signature", "sig"), ("algorithm", "MD5")]
      ⟨some 22000, some .USD, some "FINALIZED", some "r"⟩ 22000 .USD "r"
      rfl rfl (by rfl) (by rfl) (by rfl) rfl rfl rfl rfl rfl).1 hle
  simpa [add_new_status] using h

/-- C10: for every signature-verified FINALIZED refund notification whose
dequantized amount is ≥ `captured_amount`, `process_notification` changes
only the payment's status (to REFUNDED), message, and journal:
`captured_amount` and `total` keep their previous values. -/
theorem C10_full_refund_frame
    (md5hex : String → String) (parseJson : String → Option NotifData)
    (second_key : String) (payment : Payment) (request : Request)
    (data : NotifData) (header : String) (header_data : List (String × String))
    (refund : RefundData) (a : ℤ) (c : Currency) (rd : String)
    (hparse : parseJson request.body = some data)
    (hhdr : request.openpayu_signature = some header)
    (hpd : parseHeaderData header = .ok header_data)
    (hsig : dictGet header_data "signature" = some (md5hex (request.body ++ second_key)))
    (halg : dictGet header_data "algorithm" = some "MD5")
    (hrefund : data.refund = some refund)
    (hamount : refund.amount = some a)
    (hcurrency : refund.currencyCode = some c)
    (hstatus : refund.status = some "FINALIZED")
    (hreason : refund.reasonDescription = some rd)
    (hge : payment.captured_amount ≤ dequantize_price a c) :
    ∃ p', process_notification md5hex parseJson second_key payment request =
        .ok (p', ⟨"ok", 200⟩) ∧
      p'.status = .refunded ∧
      p'.captured_amount = payment.captured_amount ∧
      p'.total = payment.total ∧
      p'.message = payment.message ++ rd ∧
      p'.statuses = add_new_status payment.statuses data := by
  refine ⟨{ payment with
              statuses := add_new_status payment.statuses data,
              message := payment.message ++ rd,
              status := .refunded }, ?_, rfl, rfl, rfl, rfl, rfl⟩
  simp [process_notification, hparse, hhdr, hpd, hsig, halg, getKey, hrefund,
    hamount, hcurrency, hstatus, hreason, hge]

theorem C10_full_refund_frame_witness :
    ∃ p', process_notification (fun _ => "sig")
        (fun _ => some ⟨some ⟨some 30000, some .USD, some "FINALIZED", some "r"⟩, none⟩) "k"
        ⟨.confirmed, .unknown, .USD, 220, 220, "m", none, none, none, [], [], []⟩ ⟨"B", some "signature=sig;algorithm=MD5"⟩ =
        .ok (p', ⟨"ok", 200⟩) ∧
      p'.status = .refunded ∧
      p'.captured_amount = 220 ∧
      p'.total = 220 ∧
      p'.message = "m" ++ "r" ∧
      p'.statuses = add_new_status []
        ⟨some ⟨some 30000, some .USD, some "FINALIZED", some "r"⟩, none⟩ :=
  C10_full_refund_frame (fun _ => "sig")
    (fun _ => some ⟨some ⟨some 30000, some .USD, some "FINALIZED", some "r"⟩, none⟩) "k"
    ⟨.confirmed, .unknown, .USD, 220, 220, "m", none, none, none, [], [], []⟩ ⟨"B", some "signature=sig;algorithm=MD5"⟩
    ⟨some ⟨some 30000, some .USD, some "FINALIZED", some "r"⟩, none⟩
    "signature=sig;algorithm=MD5" [("signature", "sig"), ("algorithm", "MD5")]
    ⟨some 30000, some .USD, some "FINALIZED", some "r"⟩ 30000 .USD "r"
    rfl rfl (by rfl) (by rfl) (by rfl) rfl rfl rfl rfl rfl
    (by norm_num [dequantize_price, CURRENCY_SUB_UNIT])

/-- C2: for every inbound notification with a decodable body and a
well-formed signature header whose signature entry does not match the MD5
digest of the raw body concatenated with the second key (or whose algorithm
is not MD5), `process_notification` returns the generic failure response and
leaves the payment record — status, `captured_amount` and all other fields —
unchanged. -/
theorem C2_signature_mismatch
    (md5hex : String → String) (parseJson : String → Option NotifData)
    (second_key : String) (payment : Payment) (request : Request)
    (data : NotifData) (header : String) (header_data : List (String × String))
    (s alg : String)
    (hparse : parseJson request.body = some data)
    (hhdr : request.openpayu_signature = some header)
    (hpd : parseHeaderData header = .ok header_data)
    (hsig : dictGet header_data "signature" = some s)
    (halg : dictGet header_data "algorithm" = some alg)
    (hbad : ¬(alg = "MD5" ∧ s = md5hex (request.body ++ second_key))) :
    process_notification md5hex parseJson second_key payment request =
      .ok (payment, ⟨"not ok", 500⟩) := by
  by_cases hA : alg = "MD5"
  · have hS : ¬s = md5hex (request.body ++ second_key) := fun hs => hbad ⟨hA, hs⟩
    subst hA
    simp [process_notification, hparse, hhdr, hpd, hsig, halg, getKey, hS]
  · simp [process_notification, hparse, hhdr, hpd, hsig, halg, getKey, hA]

theorem C2_signature_mismatch_witness :
    process_notification (fun _ => "good") (fun _ => some ⟨none, none⟩) "k"
      ⟨.waiting, .unknown, .USD, 100, 0, "", none, none, none, [], [], []⟩ ⟨"Z", some "signature=bad;algorithm=MD5"⟩ =
      .ok (⟨.waiting, .unknown, .USD, 100, 0, "", none, none, none, [], [], []⟩, ⟨"not ok", 500⟩) :=
  C2_signature_mismatch (fun _ => "good") (fun _ => some ⟨none, none⟩) "k"
    ⟨.waiting, .unknown, .USD, 100, 0, "", none, none, none, [], [], []⟩ ⟨"Z", some "signature=bad;algorithm=MD5"⟩
    ⟨none, none⟩ "signature=bad;algorithm=MD5"
    [("signature", "bad"), ("algorithm", "MD5")] "bad" "MD5"
    rfl rfl (by rfl) (by rfl) (by rfl) (by decide)

/-- C4: for every order-status notification with a valid signature,
`process_notification` maps `order.status` through the fixed table
COMPLETED→CONFIRMED, PENDING→INPUT, WAITING_FOR_CONFIRMATION→INPUT,
CANCELED→REJECTED, NEW→WAITING (an unmapped value is a hard error: the
`KeyError` escapes), and when the mapped status is CONFIRMED and the payload
carries `totalAmount` it overwrites `captured_amount` with the dequantized
`totalAmount` before applying the new status. -/
theorem C4_order_status_mapping
    (md5hex : String → String) (parseJson : String → Option NotifData)
    (second_key : String) (payment : Payment) (request : Request)
    (data : NotifData) (header : String) (header_data : List (String × String))
    (ord : OrderData) (ostatus : String)
    (hparse : parseJson request.body = some data)
    (hhdr : request.openpayu_signature = some header)
    (hpd : parseHeaderData header = .ok header_data)
    (hsig : dictGet header_data "signature" = some (md5hex (request.body ++ second_key)))
    (halg : dictGet header_data "algorithm" = some "MD5")
    (hrefund : data.refund = none)
    (horder : data.order = some ord)
    (hos : ord.status = some ostatus) :
    (status_map "COMPLETED" = some .confirmed ∧
     status_map "PENDING" = some .input ∧
     status_map "WAITING_FOR_CONFIRMATION" = some .input ∧
     status_map "CANCELED" = some .rejected ∧
     status_map "NEW" = some .waiting) ∧
    (status_map ostatus = none →
      process_notification md5hex parseJson second_key payment request =
        .error (.keyError ostatus)) ∧
    (∀ st, status_map ostatus = some st →
      (ord.totalAmount = none ∨ st ≠ .confirmed →
        process_notification md5hex parseJson second_key payment request =
          .ok ({ payment with
                   statuses := add_new_status payment.statuses data,
                   status := st }, ⟨"ok", 200⟩)) ∧
      (∀ ta c, st = .confirmed → ord.totalAmount = some ta →
        ord.currencyCode = some c →
        process_notification md5hex parseJson second_key payment request =
          .ok ({ payment with
                   statuses := add_new_status payment.statuses data,
                   captured_amount := dequantize_price ta c,
                   status := st }, ⟨"ok", 200⟩))) := by
  refine ⟨⟨rfl, rfl, rfl, rfl, rfl⟩, ?_, ?_⟩
  · intro h
    simp [process_notification, hparse, hhdr, hpd, hsig, halg, getKey, hrefund,
      horder, hos, h]
  · intro st hst
    constructor
    · rintro (hta | hne)
      · simp [process_notification, hparse, hhdr, hpd, hsig, halg, getKey, hrefund,
          horder, hos, hst, hta]
      · simp [process_notification, hparse, hhdr, hpd, hsig, halg, getKey, hrefund,
          horder, hos, hst, hne]
    · intro ta c hstc hta hcc
      subst hstc
      simp [process_notification, hparse, hhdr, hpd, hsig, halg, getKey, hrefund,
        horder, hos, hst, hta, hcc]

theorem C4_order_status_mapping_witness :
    dequantize_price 20000 .USD = 200 ∧
    process_notification (fun _ => "sig")
      (fun _ => some ⟨none, some ⟨some "COMPLETED", some 20000, some .USD⟩⟩) "k"
      ⟨.waiting, .unknown, .USD, 200, 0, "", none, none, none, [], [], []⟩ ⟨"B", some "signature=sig;algorithm=MD5"⟩ =
      .ok (⟨.confirmed, .unknown, .USD, 200, 200, "", none, none, none,
            [⟨none, some ⟨some "COMPLETED", some 20000, some .USD⟩⟩], [], []⟩, ⟨"ok", 200⟩) := by
  have hdq : dequantize_price 20000 .USD = 200 := by
    norm_num [dequantize_price, CURRENCY_SUB_UNIT]
  refine ⟨hdq, ?_⟩
  have h := ((C4_order_status_mapping (fun _ => "sig")
      (fun _ => some ⟨none, some ⟨some "COMPLETED", some 20000, some .USD⟩⟩) "k"
      ⟨.waiting, .unknown, .USD, 200, 0, "", none, none, none, [], [], []⟩ ⟨"B", some "signature=sig;algorithm=MD5"⟩
      ⟨none, some ⟨some "COMPLETED", some 20000, some .USD⟩⟩
      "signature=sig;algorithm=MD5" [("signature", "sig"), ("algorithm", "MD5")]
      ⟨some "COMPLETED", some 20000, some .USD⟩ "COMPLETED"
      rfl rfl (by rfl) (by rfl) (by rfl) rfl rfl rfl).2.2 .confirmed rfl).2
      20000 .USD rfl rfl rfl
  rw [h, hdq]
  rfl

/-- C9 (amended): `process_notification` returns a failure HTTP response
only for signature mismatches and unsupported signature algorithms: every
returned response other than "ok"/200 is the generic "not ok"/500 response,
produced with the payment record unchanged, and only when the body decodes
and the signature header parses to `signature` and `algorithm` entries of
which the algorithm is not MD5 or the signature does not equal the keyed
digest of the body.  Malformed or unsupported notifications instead raise:
a request without the `OpenPayU-Signature` header raises
`PayuApiError("Malformed POST")`, a signature-verified refund payload whose
status is not FINALIZED raises an exception, and a signature-verified order
payload with an unmapped `order.status` raises a `KeyError` — none of these
return an HTTP response. -/
theorem C9_amended_failure_response_paths :
    (∀ (md5hex : String → String) (parseJson : String → Option NotifData)
       (second_key : String) (payment p : Payment) (request : Request)
       (resp : HttpResp),
       process_notification md5hex parseJson second_key payment request = .ok (p, resp) →
       resp ≠ ⟨"ok", 200⟩ →
       resp = ⟨"not ok", 500⟩ ∧ p = payment ∧
       ∃ data header header_data s alg,
         parseJson request.body = some data ∧
         request.openpayu_signature = some header ∧
         parseHeaderData header = .ok header_data ∧
         dictGet header_data "signature" = some s ∧
         dictGet header_data "algorithm" = some alg ∧
         ¬(alg = "MD5" ∧ s = md5hex (request.body ++ second_key))) ∧
    (∀ (md5hex : String → String) (parseJson : String → Option NotifData)
       (second_key : String) (payment : Payment) (request : Request)
       (data : NotifData),
       parseJson request.body = some data →
       request.openpayu_signature = none →
       process_notification md5hex parseJson second_key payment request =
         .error (.payuApiError "Malformed POST")) ∧
    (∀ (md5hex : String → String) (parseJson : String → Option NotifData)
       (second_key : String) (payment : Payment) (request : Request)
       (data : NotifData) (header : String) (header_data : List (String × String))
       (refund : RefundData) (a : ℤ) (c : Currency) (rs : String),
       parseJson request.body = some data →
       request.openpayu_signature = some header →
       parseHeaderData header = .ok header_data →
       dictGet header_data "signature" = some (md5hex (request.body ++ second_key)) →
       dictGet header_data "algorithm" = some "MD5" →
       data.refund = some refund →
       refund.amount = some a →
       refund.currencyCode = some c →
       refund.status = some rs →
       rs ≠ "FINALIZED" →
       process_notification md5hex parseJson second_key payment request =
         .error (.exception "Refund was not finelized")) ∧
    (∀ (md5hex : String → String) (parseJson : String → Option NotifData)
       (second_key : String) (payment : Payment) (request : Request)
       (data : NotifData) (header : String) (header_data : List (String × String))
       (ord : OrderData) (ostatus : String),
       parseJson request.body = some data →
       request.openpayu_signature = some header →
       parseHeaderData header = .ok header_data →
       dictGet header_data "signature" = some (md5hex (request.body ++ second_key)) →
       dictGet header_data "algorithm" = some "MD5" →
       data.refund = none →
       data.order = some ord →
       ord.status = some ostatus →
       status_map ostatus = none →
       process_notification md5hex parseJson second_key payment request =
         .error (.keyError ostatus)) := by
  refine ⟨?_, ?_, ?_, ?_⟩
  · intro md5hex parseJson second_key payment p request resp h hne
    unfold process_notification at h
    cases hparse : parseJson request.body with
    | none => simp [hparse] at h
    | some data =>
    cases hhdr : request.openpayu_signature with
    | none => simp [hparse, hhdr] at h
    | some header =>
    cases hpd : parseHeaderData header with
    | error e => simp [hparse, hhdr, hpd] at h
    | ok header_data =>
    cases hsg : dictGet header_data "signature" with
    | none => simp [hparse, hhdr, hpd, hsg, getKey] at h
    | some s =>
    cases halg : dictGet header_data "algorithm" with
    | none => simp [hparse, hhdr, hpd, hsg, halg, getKey] at h
    | some alg =>
    simp only [hparse, hhdr, hpd, hsg, halg, getKey] at h
    by_cases hA : alg = "MD5"
    · by_cases hS : s = md5hex (request.body ++ second_key)
      · rw [if_pos hA, if_pos hS] at h
        exfalso
        repeat' split at h
        all_goals simp_all
      · rw [if_pos hA, if_neg hS] at h
        simp only [Except.ok.injEq, Prod.mk.injEq] at h
        obtain ⟨hp, hr⟩ := h
        exact ⟨hr.symm, hp.symm, data, header, header_data, s, alg, rfl, rfl, hpd,
          hsg, halg, fun hand => hS hand.2⟩
    · rw [if_neg hA] at h
      simp only [Except.ok.injEq, Prod.mk.injEq] at h
      obtain ⟨hp, hr⟩ := h
      exact ⟨hr.symm, hp.symm, data, header, header_data, s, alg, rfl, rfl, hpd,
        hsg, halg, fun hand => hA hand.1⟩
  · intro md5hex parseJson second_key payment request data hparse hhdr
    simp [process_notification, hparse, hhdr]
  · intro md5hex parseJson second_key payment request data header header_data
      refund a c rs hparse hhdr hpd hsig halg hrefund hamount hcurrency hstatus hne
    simp [process_notification, hparse, hhdr, hpd, hsig, halg, getKey, hrefund,
      hamount, hcurrency, hstatus, hne]
  · intro md5hex parseJson second_key payment request data header header_data
      ord ostatus hparse hhdr hpd hsig halg hrefund horder hos hmap
    simp [process_notification, hparse, hhdr, hpd, hsig, halg, getKey, hrefund,
      horder, hos, hmap]

theorem C9_amended_failure_response_paths_witness :
    ((⟨"not ok", 500⟩ : HttpResp) = ⟨"not ok", 500⟩ ∧
      (⟨.waiting, .unknown, .USD, 100, 0, "", none, none, none, [], [], []⟩ : Payment) =
        ⟨.waiting, .unknown, .USD, 100, 0, "", none, none, none, [], [], []⟩ ∧
      ∃ data header header_data s alg,
        (fun _ : String => some (⟨none, none⟩ : NotifData))
            (⟨"Z", some "signature=bad;algorithm=MD5"⟩ : Request).body = some data ∧
        (⟨"Z", some "signature=bad;algorithm=MD5"⟩ : Request).openpayu_signature =
          some header ∧
        parseHeaderData header = .ok header_data ∧
        dictGet header_data "signature" = some s ∧
        dictGet header_data "algorithm" = some alg ∧
        ¬(alg = "MD5" ∧ s = (fun _ : String => "good")
            ((⟨"Z", some "signature=bad;algorithm=MD5"⟩ : Request).body ++ "k"))) ∧
    process_notification (fun _ => "x") (fun _ => some ⟨none, none⟩) "k"
      ⟨.waiting, .unknown, .USD, 100, 0, "", none, none, none, [], [], []⟩ ⟨"{}", none⟩ =
      .error (.payuApiError "Malformed POST") ∧
    process_notification (fun _ => "sig")
      (fun _ => some ⟨some ⟨some 1000, some .USD, some "PENDING", none⟩, none⟩) "k"
      ⟨.confirmed, .unknown, .USD, 100, 100, "", none, none, none, [], [], []⟩
      ⟨"B", some "signature=sig;algorithm=MD5"⟩ =
      .error (.exception "Refund was not finelized") ∧
    process_notification (fun _ => "sig")
      (fun _ => some ⟨none, some ⟨some "REVERSED", none, none⟩⟩) "k"
      ⟨.waiting, .unknown, .USD, 100, 0, "", none, none, none, [], [], []⟩
      ⟨"B", some "signature=sig;algorithm=MD5"⟩ =
      .error (.keyError "REVERSED") := by
  refine ⟨?_, ?_, ?_, ?_⟩
  · exact C9_amended_failure_response_paths.1 (fun _ => "good")
      (fun _ => some ⟨none, none⟩) "k"
      ⟨.waiting, .unknown, .USD, 100, 0, "", none, none, none, [], [], []⟩
      ⟨.waiting, .unknown, .USD, 100, 0, "", none, none, none, [], [], []⟩
      ⟨"Z", some "signature=bad;algorithm=MD5"⟩ ⟨"not ok", 500⟩ rfl (by decide)
  · exact C9_amended_failure_response_paths.2.1 (fun _ => "x")
      (fun _ => some ⟨none, none⟩) "k"
      ⟨.waiting, .unknown, .USD, 100, 0, "", none, none, none, [], [], []⟩
      ⟨"{}", none⟩ ⟨none, none⟩ rfl rfl
  · exact C9_amended_failure_response_paths.2.2.1 (fun _ => "sig")
      (fun _ => some ⟨some ⟨some 1000, some .USD, some "PENDING", none⟩, none⟩) "k"
      ⟨.confirmed, .unknown, .USD, 100, 100, "", none, none, none, [], [], []⟩
      ⟨"B", some "signature=sig;algorithm=MD5"⟩
      ⟨some ⟨some 1000, some .USD, some "PENDING", none⟩, none⟩
      "signature=sig;algorithm=MD5" [("signature", "sig"), ("algorithm", "MD5")]
      ⟨some 1000, some .USD, some "PENDING", none⟩ 1000 .USD "PENDING"
      rfl rfl (by rfl) (by rfl) (by rfl) rfl rfl rfl rfl (by decide)
  · exact C9_amended_failure_response_paths.2.2.2 (fun _ => "sig")
      (fun _ => some ⟨none, some ⟨some "REVERSED", none, none⟩⟩) "k"
      ⟨.waiting, .unknown, .USD, 100, 0, "", none, none, none, [], [], []⟩
      ⟨"B", some "signature=sig;algorithm=MD5"⟩
      ⟨none, some ⟨some "REVERSED", none, none⟩⟩
      "signature=sig;algorithm=MD5" [("signature", "sig"), ("algorithm", "MD5")]
      ⟨some "REVERSED", none, none⟩ "REVERSED"
      rfl rfl (by rfl) (by rfl) (by rfl) rfl rfl rfl rfl

theorem C9_counterexample :
    process_notification (fun _ => "x") (fun _ => some ⟨none, none⟩) "k"
      ⟨.waiting, .unknown, .USD, 100, 0, "", none, none, none, [], [], []⟩ ⟨"{}", none⟩ =
      .error (.payuApiError "Malformed POST") := rfl

lemma quantize_price_spec_div100 (k : ℤ) (c : Currency) :
    quantize_price_spec ((k : ℚ) / 100) c = k := by
  unfold quantize_price_spec CURRENCY_SUB_UNIT
  rw [show (k : ℚ) / 100 * 100 = (k : ℚ) by field_simp]
  exact roundHalfUpInt_intCast k

theorem C5_counterexample :
    quantize_price (9 / 1000) .USD = 0 ∧ quantize_price_spec (9 / 1000) .USD = 1 := by
  constructor
  · unfold quantize_price decQuantizeCents roundHalfUpInt pyIntTrunc CURRENCY_SUB_UNIT
    norm_num
  · unfold quantize_price_spec roundHalfUpInt CURRENCY_SUB_UNIT
    norm_num

/-- C5 (amended): `quantize_price` multiplies the amount by the currency's
sub-unit divisor of 100, rounds the scaled value half-up to two decimal
places, and then truncates toward zero to an integer; on every amount with
at most 2 fractional digits this agrees with the spec's half-up rounding to
the nearest integer and returns exactly the amount times 100. -/
theorem C5_amended_quantize (c : Currency) (k : ℤ) :
    quantize_price ((k : ℚ) / 100) c = k ∧
    quantize_price_spec ((k : ℚ) / 100) c = k :=
  ⟨quantize_price_div100 k c, quantize_price_spec_div100 k c⟩

/-- C6: for every supported currency and every decimal amount with at most
2 fractional digits (i.e. every amount `k / 100` with `k` an integer),
`dequantize_price (quantize_price x) = x`. -/
theorem C6_roundtrip (c : Currency) (k : ℤ) :
    dequantize_price (quantize_price ((k : ℚ) / 100) c) c = (k : ℚ) / 100 := by
  rw [quantize_price_div100]
  rfl

/-- A decoded gateway API response, as far as `post_request` inspects it:
the optional top-level `error` field and the optional `status` object. -/
structure ApiResponse where
  error : Option String
  status : Option RespStatus
deriving DecidableEq, Repr

/-- The unauthorized test of `post_request`:
`response_dict.get("error") == "invalid_token"` or `"status" in
response_dict and "statusCode" in response_dict["status"] and
response_dict["status"]["statusCode"] == "UNAUTHORIZED"`. -/
def isUnauthorizedResp (r : ApiResponse) : Bool :=
  r.error == some "invalid_token" ||
    match r.status with
    | some st => st.statusCode == some "UNAUTHORIZED"
    | none => false

/-- The attribute `self.retry_count` set in `PayuProvider.__init__`. -/
def retry_count : ℕ := 5

/-- The body of `post_request`'s `for i in range(1, self.retry_count)` loop.
`responses i` is the decoded response to the request issued in iteration
`i`; `auth i` is the outcome of `get_access_token` in iteration `i`
(`.error e` when it raises `PayuApiError(e)`).  The first component of the
result counts the requests actually issued. -/
def post_request_go (responses : ℕ → ApiResponse) (auth : ℕ → Except String Unit) :
    List ℕ → ℕ → ℕ × Except PyError ApiResponse
  | [], issued => (issued, .error (.payuApiError "Unable to regain authorization token"))
  | i :: rest, issued =>
    let r := responses i
    if isUnauthorizedResp r then
      match auth i with
      | .error e =>
        (issued + 1, .error (.payuApiError ("Unable to regain authorization token " ++ e)))
      | .ok _ => post_request_go responses auth rest (issued + 1)
    else
      (issued + 1, .ok r)

/-- Source `PayuProvider.post_request`: iterate over `range(1, retry_count)`,
re-authenticating on every unauthorized response, and raise
`PayuApiError("Unable to regain authorization token")` when the range is
exhausted. -/
def post_request (responses : ℕ → ApiResponse) (auth : ℕ → Except String Unit) :
    ℕ × Except PyError ApiResponse :=
  post_request_go responses auth (List.range' 1 (retry_count - 1)) 0

theorem C3_counterexample :
    (post_request (fun _ => ⟨some "invalid_token", none⟩) (fun _ => .ok ())).1 = 4 ∧
    (post_request (fun _ => ⟨some "invalid_token", none⟩) (fun _ => .ok ())).1 ≠ 5 ∧
    (post_request (fun _ => ⟨some "invalid_token", none⟩) (fun _ => .ok ())).2 =
      .error (.payuApiError "Unable to regain authorization token") := by
  refine ⟨rfl, by decide, rfl⟩

/-- C3 (amended): for every request through the access-token manager where
each response is classified as unauthorized (body contains
`error == "invalid_token"` or `status.statusCode == "UNAUTHORIZED"`) and
re-authentication succeeds, `post_request` issues the request 4 times in
total (`range(1, 5)`), re-authenticating after each attempt, and then fails
with the exhaustion error `PayuApiError("Unable to regain authorization
token")` instead of looping indefinitely. -/
theorem C3_amended_auth_retry_bound
    (responses : ℕ → ApiResponse) (auth : ℕ → Except String Unit)
    (hunauth : ∀ i, isUnauthorizedResp (responses i) = true)
    (hauth : ∀ i, auth i = .ok ()) :
    post_request responses auth =
      (4, .error (.payuApiError "Unable to regain authorization token")) := by
  unfold post_request retry_count
  norm_num [List.range']
  simp [post_request_go, hunauth, hauth]

theorem C3_amended_auth_retry_bound_witness :
    post_request (fun _ => ⟨none, some ⟨some "UNAUTHORIZED", none⟩⟩) (fun _ => .ok ()) =
      (4, .error (.payuApiError "Unable to regain authorization token")) :=
  C3_amended_auth_retry_bound (fun _ => ⟨none, some ⟨some "UNAUTHORIZED", none⟩⟩)
    (fun _ => .ok ()) (fun _ => rfl) (fun _ => rfl)

/-- Source `add_extra_data(payment, ...)`: merge a new entry into the `extra_data`
journal (modelled as an append). -/
def add_extra_data (extra : List ExtraEntry) (e : ExtraEntry) : List ExtraEntry :=
  extra ++ [e]

/-- The `try: ... except KeyError: pass` block of
`PayuProvider.create_order`, given the decoded response of `post_request`.
Returns the payment as mutated so far, together with the early-returned
URL when the block hits one of its `return` statements (`none` means the
block fell through, by a `KeyError` or by an unrecognized status code).
`payment.get_payment_url()` and `payment_processor.continueUrl` are the
`payment_url` and `continueUrl` parameters. -/
def create_order_try (payment : Payment) (resp : OrderResponse) (auto_renew : Bool)
    (continueUrl payment_url : String) : Payment × Option String :=
  match resp.orderId with
  | none => (payment, none)
  | some oid =>
    let payment := { payment with transaction_id := some oid }
    let payment :=
      match resp.payMethods with
      | some pm => { payment with renew_token := some pm.value }
      | none => payment
    let payment := { payment with extra := add_extra_data payment.extra (.cardResponse resp) }
    match resp.status with
    | none => (payment, none)
    | some st =>
      match st.statusCode with
      | none => (payment, none)
      | some sc =>
        if sc = "SUCCESS" then
          match resp.redirectUri with
          | some uri => ({ payment with pay_link := some uri }, some uri)
          | none => (payment, some (if auto_renew then "success" else continueUrl))
        else if sc = "WARNING_CONTINUE_CVV" then
          match resp.redirectUri with
          | some uri =>
            ({ payment with extra := add_extra_data payment.extra (.cvvUrl uri) },
             some payment_url)
          | none => (payment, none)
        else if sc = "WARNING_CONTINUE_3DS" then
          match resp.redirectUri with
          | some uri =>
            ({ payment with extra := add_extra_data payment.extra (.threeDsUrl uri) },
             some uri)
          | none => (payment, none)
        else (payment, none)

/-- Source `PayuProvider.create_order`, given the decoded response of
`post_request`.  After the `try` block: a `BUSINESS_ERROR` flags the fraud
status, any other status stores the response; `ERROR_ORDER_NOT_UNIQUE` on an
already-CONFIRMED payment returns the empty redirect; everything else sets
the payment status to ERROR and returns `payment_processor.failureUrl`
(the logging `except` handler reads `status.codeLiteral`, whose absence is
an uncaught `KeyError`). -/
def create_order (payment : Payment) (resp : OrderResponse) (auto_renew : Bool)
    (continueUrl failureUrl payment_url : String) : Except PyError (Payment × String) :=
  match create_order_try payment resp auto_renew continueUrl payment_url with
  | (payment, some url) => .ok (payment, url)
  | (payment, none) =>
    match resp.status with
    | some st =>
      match st.statusCode with
      | none => .error (.keyError "statusCode")
      | some sc =>
        let payment :=
          if sc = "BUSINESS_ERROR" then { payment with fraud_status := .reject }
          else { payment with extra := add_extra_data payment.extra (.respDict resp) }
        if sc = "ERROR_ORDER_NOT_UNIQUE" ∧ payment.status = .confirmed then
          .ok (payment, "")
        else
          let payment := { payment with status := .error }
          match st.codeLiteral with
          | none => .error (.keyError "codeLiteral")
          | some _ => .ok (payment, failureUrl)
    | none =>
      let payment := { payment with status := .error }
      .ok (payment, failureUrl)

/-- The `try` block of `create_order` never changes the payment's status
(or its `captured_amount`). -/
lemma create_order_try_frame (payment : Payment) (resp : OrderResponse)
    (auto_renew : Bool) (continueUrl payment_url : String) :
    (create_order_try payment resp auto_renew continueUrl payment_url).1.status =
        payment.status ∧
      (create_order_try payment resp auto_renew continueUrl payment_url).1.captured_amount =
        payment.captured_amount := by
  unfold create_order_try
  rcases resp with ⟨oid, pm, st, ru⟩
  rcases oid with _ | oid
  · exact ⟨rfl, rfl⟩
  rcases pm with _ | pm <;> rcases st with _ | st <;>
    first
      | exact ⟨rfl, rfl⟩
      | (rcases st with ⟨sc, cl⟩
         rcases sc with _ | sc
         · exact ⟨rfl, rfl⟩
         · dsimp only
           split <;> [skip; split] <;> [rcases ru with _ | u; skip; skip] <;>
             first
               | exact ⟨rfl, rfl⟩
               | (split <;> first
                   | exact ⟨rfl, rfl⟩
                   | (rcases ru with _ | u <;> exact ⟨rfl, rfl⟩)))

/-- When the synchronous status code is `ERROR_ORDER_NOT_UNIQUE`, the `try`
block falls through without an early return. -/
lemma create_order_try_not_unique (payment : Payment) (resp : OrderResponse)
    (auto_renew : Bool) (continueUrl payment_url : String) (st : RespStatus)
    (hst : resp.status = some st)
    (hsc : st.statusCode = some "ERROR_ORDER_NOT_UNIQUE") :
    (create_order_try payment resp auto_renew continueUrl payment_url).2 = none := by
  unfold create_order_try
  rcases resp with ⟨oid, pm, rst, ru⟩
  rcases oid with _ | oid
  · rfl
  rcases pm with _ | pm <;> (dsimp only at hst ⊢; rw [hst]; dsimp only; rw [hsc]; simp)

/-- C7: for every order-creation response whose `status.statusCode` is
ERROR_ORDER_NOT_UNIQUE while the payment's status is already CONFIRMED,
`create_order` returns an empty redirect string and the payment's status is
left unchanged (in particular it is not set to ERROR). -/
theorem C7_not_unique_confirmed (payment : Payment) (resp : OrderResponse)
    (auto_renew : Bool) (continueUrl failureUrl payment_url : String) (st : RespStatus)
    (hst : resp.status = some st)
    (hsc : st.statusCode = some "ERROR_ORDER_NOT_UNIQUE")
    (hconf : payment.status = .confirmed) :
    ∃ p', create_order payment resp auto_renew continueUrl failureUrl payment_url =
        .ok (p', "") ∧ p'.status = payment.status ∧ p'.status = .confirmed := by
  have h2 := create_order_try_not_unique payment resp auto_renew continueUrl
    payment_url st hst hsc
  have h1 := (create_order_try_frame payment resp auto_renew continueUrl payment_url).1
  rcases hE : create_order_try payment resp auto_renew continueUrl payment_url with ⟨p1, o⟩
  have ho : o = none := by rw [← h2, hE]
  subst ho
  have hp1 : p1.status = payment.status := by rw [← h1, hE]
  refine ⟨{ p1 with extra := add_extra_data p1.extra (.respDict resp) }, ?_, hp1, ?_⟩
  · unfold create_order
    rw [hE]
    dsimp only
    rw [hst]
    dsimp only
    rw [hsc]
    simp [hp1, hconf]
  · rw [show ({ p1 with extra := add_extra_data p1.extra (.respDict resp) } :
        Payment).status = p1.status from rfl, hp1, hconf]

theorem C7_not_unique_confirmed_witness :
    ∃ p', create_order
        ⟨.confirmed, .unknown, .USD, 200, 200, "", some "oid", none, none, [], [], []⟩
        ⟨some "oid", none, some ⟨some "ERROR_ORDER_NOT_UNIQUE", some "ORDER_NOT_UNIQUE"⟩, none⟩
        false "cont" "fail" "pay" =
        .ok (p', "") ∧
      p'.status =
        (⟨.confirmed, .unknown, .USD, 200, 200, "", some "oid", none, none, [], [], []⟩ :
          Payment).status ∧
      p'.status = .confirmed :=
  C7_not_unique_confirmed
    ⟨.confirmed, .unknown, .USD, 200, 200, "", some "oid", none, none, [], [], []⟩
    ⟨some "oid", none, some ⟨some "ERROR_ORDER_NOT_UNIQUE", some "ORDER_NOT_UNIQUE"⟩, none⟩
    false "cont" "fail" "pay" ⟨some "ERROR_ORDER_NOT_UNIQUE", some "ORDER_NOT_UNIQUE"⟩
    rfl rfl rfl

/-- The exception kinds raised by `PayuProvider.refund` (interpolated
details of the Python messages are dropped; the constructor and the fixed
message prefix identify each `raise` site). -/
inductive RefundError where
  | valueError (msg : String)
  | payuApiError (msg : String)
  | notImplementedError (msg : String)
deriving DecidableEq, Repr

/-- Source `PayuProvider.refund(payment, amount)`, given the decoded response of
`post_request` to the refund request.  `has_description` is whether
`get_refund_description` is configured.  The first component is the payment
record as mutated by the time the call returns or raises (only the
`refund_responses` journal is ever touched), the second the returned refund
delta (`Decimal(0)`) or the raised exception. -/
def refund (has_description : Bool) (payment : Payment) (amount : Option ℚ)
    (response : RefundResponse) : Payment × Except RefundError ℚ :=
  if has_description = false then
    (payment, .error (.valueError "get_refund_description not set"))
  else
    let payment :=
      { payment with refund_responses := payment.refund_responses ++ [response] }
    let refund_id : Option String := response.refund.bind (·.refundId)
    match response.status with
    | none => (payment, .error (.payuApiError "invalid response to refund"))
    | some st =>
      match st.statusCode with
      | none => (payment, .error (.payuApiError "invalid response to refund"))
      | some response_status_code =>
        if response_status_code ≠ "SUCCESS" then
          (payment, .error (.valueError "refund failed"))
        else
          match refund_id with
          | none => (payment, .error (.payuApiError "invalid response to refund"))
          | some _ =>
            match response.orderId, response.refund with
            | some refund_order_id, some r =>
              match r.status, r.currencyCode, r.amount with
              | some refund_status, some refund_currency, some ramount =>
                let refund_amount := dequantize_price ramount refund_currency
                if some refund_order_id ≠ payment.transaction_id then
                  (payment, .error (.notImplementedError "different order_id"))
                else if refund_status = "CANCELED" then
                  (payment, .error (.valueError "refund canceled"))
                else if refund_status = "FINALIZED" then
                  (payment, .error (.notImplementedError "FINALIZED already not supported"))
                else if refund_status ≠ "PENDING" then
                  (payment, .error (.payuApiError "invalid status of refund"))
                else if refund_currency ≠ payment.currency then
                  (payment, .error (.notImplementedError "different currency"))
                else
                  match amount with
                  | some amt =>
                    if refund_amount ≠ amt then
                      (payment, .error (.notImplementedError "different amount"))
                    else (payment, .ok 0)
                  | none => (payment, .ok 0)
              | _, _, _ => (payment, .error (.payuApiError "invalid response to refund"))
            | _, _ => (payment, .error (.payuApiError "invalid response to refund"))

/-- The `refund` operation only ever touches the `refund_responses` journal of the
payment record: `captured_amount` and `status` are unchanged on every path,
also the raising ones. -/
lemma refund_frame (h : Bool) (payment : Payment) (amount : Option ℚ)
    (response : RefundResponse) :
    (refund h payment amount response).1.captured_amount = payment.captured_amount ∧
      (refund h payment amount response).1.status = payment.status := by
  unfold refund
  dsimp only
  repeat' split
  all_goals exact ⟨rfl, rfl⟩

/-- C8: for every otherwise-successful synchronous refund response (status
code SUCCESS, refund id present, matching order id) whose refund status is
CANCELED, `refund` raises a cancellation error (`ValueError`) and the
payment's `captured_amount` and status are unmodified; the returned refund
status must be exactly PENDING (then the call returns `Decimal(0)`), with
FINALIZED raising an unsupported-response error (`NotImplementedError`) and
any other value a protocol error (`PayuApiError`). -/
theorem C8_refund_status_validation
    (payment : Payment) (amount : Option ℚ) (response : RefundResponse)
    (st : RespStatus) (r : RefundRespData) (rid oid rs : String) (c : Currency) (a : ℤ)
    (hst : response.status = some st)
    (hsc : st.statusCode = some "SUCCESS")
    (href : response.refund = some r)
    (hrid : r.refundId = some rid)
    (hoid : response.orderId = some oid)
    (htid : payment.transaction_id = some oid)
    (hrs : r.status = some rs)
    (hc : r.currencyCode = some c)
    (ha : r.amount = some a) :
    (rs = "CANCELED" →
      (refund true payment amount response).2 = .error (.valueError "refund canceled") ∧
      (refund true payment amount response).1.captured_amount = payment.captured_amount ∧
      (refund true payment amount response).1.status = payment.status) ∧
    (rs = "FINALIZED" →
      (refund true payment amount response).2 =
        .error (.notImplementedError "FINALIZED already not supported")) ∧
    (rs ≠ "CANCELED" → rs ≠ "FINALIZED" → rs ≠ "PENDING" →
      (refund true payment amount response).2 =
        .error (.payuApiError "invalid status of refund")) ∧
    (rs = "PENDING" → c = payment.currency → amount = none →
      (refund true payment amount response).2 = .ok 0 ∧
      (refund true payment amount response).1.captured_amount = payment.captured_amount) := by
  refine ⟨?_, ?_, ?_, ?_⟩
  · intro hcanc
    subst hcanc
    refine ⟨?_, (refund_frame true payment amount response).1,
      (refund_frame true payment amount response).2⟩
    simp [refund, hst, hsc, href, hrid, hoid, htid, hrs, hc, ha]
  · intro hfin
    subst hfin
    simp [refund, hst, hsc, href, hrid, hoid, htid, hrs, hc, ha]
  · intro h1 h2 h3
    simp [refund, hst, hsc, href, hrid, hoid, htid, hrs, hc, ha, h1, h2, h3]
  · intro hpend hcur hamt
    subst hpend hamt
    refine ⟨?_, (refund_frame true payment none response).1⟩
    simp [refund, hst, hsc, href, hrid, hoid, htid, hrs, hc, ha, hcur]

theorem C8_refund_status_validation_witness :
    (refund true
      ⟨.confirmed, .unknown, .USD, 220, 220, "", some "oid", none, none, [], [], []⟩
      none
      ⟨some "oid", some ⟨some "rid", some "CANCELED", some .USD, some 11000⟩,
       some ⟨some "SUCCESS", none⟩⟩).2 = .error (.valueError "refund canceled") ∧
    (refund true
      ⟨.confirmed, .unknown, .USD, 220, 220, "", some "oid", none, none, [], [], []⟩
      none
      ⟨some "oid", some ⟨some "rid", some "CANCELED", some .USD, some 11000⟩,
       some ⟨some "SUCCESS", none⟩⟩).1.captured_amount = 220 ∧
    (refund true
      ⟨.confirmed, .unknown, .USD, 220, 220, "", some "oid", none, none, [], [], []⟩
      none
      ⟨some "oid", some ⟨some "rid", some "CANCELED", some .USD, some 11000⟩,
       some ⟨some "SUCCESS", none⟩⟩).1.status = .confirmed :=
  (C8_refund_status_validation
    ⟨.confirmed, .unknown, .USD, 220, 220, "", some "oid", none, none, [], [], []⟩
    none
    ⟨some "oid", some ⟨some "rid", some "CANCELED", some .USD, some 11000⟩,
     some ⟨some "SUCCESS", none⟩⟩
    ⟨some "SUCCESS", none⟩ ⟨some "rid", some "CANCELED", some .USD, some 11000⟩
    "rid" "oid" "CANCELED" .USD 11000
    rfl rfl rfl rfl rfl rfl rfl rfl rfl).1 rfl

end PayuProvider
